import Mathlib

/-!
Verification of the multi-provider data-acquisition layer of
`daily_stock_analysis` (`src/data_source_fallback.py`).

The module is shallowly embedded: provider SDK calls (TuShare, Baostock,
AkShare) are modelled as an environment of pure functions that return
either a value or a raised exception (`ApiResult`), pandas DataFrames are
modelled as a column list plus a row list, and the mutable object state
(`tushare_api`, `baostock_logged_in`) is passed explicitly.  Each public
method additionally returns the list of provider-API events it performed,
so that "provider X was (not) invoked" claims can be stated as facts about
the trace.
-/

namespace DSF

/-- Outcome of calling an external provider API: a returned value, or a
raised exception carrying its message (caught by the surrounding
`try/except` in the Python source). -/
inductive ApiResult (α : Type) where
  | ok : α → ApiResult α
  | exn : String → ApiResult α
deriving Repr, DecidableEq

/-- A pandas DataFrame, abstracted to its column labels and its rows
(cell values kept as strings). -/
structure DataFrame where
  columns : List String
  rows : List (List String)
deriving Repr, DecidableEq

/-- Python `df.empty`: true iff the frame has no rows. -/
def DataFrame.empty (df : DataFrame) : Bool := df.rows.isEmpty

/-- Result object of `baostock.login()`. -/
structure LoginResult where
  error_code : String
  error_msg : String
deriving Repr, DecidableEq

/-- Result set of a Baostock query (`query_history_k_data_plus`,
`query_profit_data`, ...): an error code, the field names, and the rows
produced by the `while rs.next(): rs.get_row_data()` loop. -/
structure ResultSet where
  error_code : String
  fields : List String
  rows : List (List String)
deriving Repr, DecidableEq

/-- Provider-API events that the methods can perform, with the arguments
the Python code passes at each call site. -/
inductive Event where
  | tushareDaily (ts_code start_date end_date fields : String)
  | bsLogin
  | bsQueryHistory (code fields start_date end_date frequency adjustflag : String)
  | akStockHist (symbol period start_date end_date adjust : String)
  | bsQueryProfit (code : String) (year quarter : Int)
  | bsQueryBalance (code : String) (year quarter : Int)
  | bsQueryCash (code : String) (year quarter : Int)
  | akFinancialSina (stock symbol : String)
deriving Repr, DecidableEq

/-- Behaviour of the external provider SDKs for one run.  Constant
arguments of the Python call sites (field lists, `period="daily"`,
`frequency="d"`) are not parameters here; they are still recorded in the
emitted `Event`s. -/
structure ProviderEnv where
  tushareDaily : String → String → String → ApiResult (Option DataFrame)
  bsLogin : ApiResult LoginResult
  bsQueryHistory : String → String → String → String → ApiResult ResultSet
  akStockHist : String → String → String → String → ApiResult (Option DataFrame)
  bsQueryProfit : String → Int → Int → ApiResult ResultSet
  bsQueryBalance : String → Int → Int → ApiResult ResultSet
  bsQueryCash : String → Int → Int → ApiResult ResultSet
  akFinancialSina : String → String → ApiResult DataFrame

/-- Mutable state of a `DataSourceFallback` instance: the configured
token, whether `ts.pro_api()` was successfully created in `__init__`
(`self.tushare_api is not None`), and the Baostock login flag. -/
structure DataSourceFallback where
  tushare_token : Option String
  tushare_api : Bool
  baostock_logged_in : Bool
deriving Repr, DecidableEq

/-- `DataSourceFallback.__init__`: the TuShare api object exists iff a
token was configured and `ts.pro_api()` did not raise (`ts_init_ok`). -/
def DataSourceFallback.init (tushare_token : Option String) (ts_init_ok : Bool) :
    DataSourceFallback :=
  { tushare_token := tushare_token
  , tushare_api := tushare_token.isSome && ts_init_ok
  , baostock_logged_in := false }

/-- Python `s.startswith(c)` for a single-character prefix: the first
character is `c`. -/
def pyStartsWith (s : String) (c : Char) : Bool := s.data.head? == some c

/-- Python `"." in s`: for the single-character substring this is
membership of the dot character. -/
def containsDot (s : String) : Bool := s.data.contains '.'

/-- `_convert_to_tushare_code`. -/
def _convert_to_tushare_code (stock_code : String) : String :=
  if containsDot stock_code then stock_code
  else if pyStartsWith stock_code '6' then stock_code ++ ".SH"
  else if pyStartsWith stock_code '0' || pyStartsWith stock_code '3' then
    stock_code ++ ".SZ"
  else if pyStartsWith stock_code '8' || pyStartsWith stock_code '4' then
    stock_code ++ ".BJ"
  else stock_code ++ ".SH"

/-- Python `s.lower()` (stock codes are ASCII, so per-character ASCII
lower-casing). -/
def pyLower (s : String) : String := String.mk (s.data.map Char.toLower)

/-- Python `s.split(sep)` for a single-character separator, on the
character list. -/
def pySplitAux (c : Char) : List Char → List (List Char)
  | [] => [[]]
  | x :: xs =>
    match pySplitAux c xs with
    | [] => [[]]
    | y :: ys => if x = c then [] :: y :: ys else (x :: y) :: ys

/-- Python `s.split(sep)` for a single-character separator. -/
def pySplit (s : String) (c : Char) : List String :=
  (pySplitAux c s.data).map String.mk

/-- `_convert_to_baostock_code`.  On a dotted code it splits at the dots
and rebuilds `parts[1].lower() + "." + parts[0]`. -/
def _convert_to_baostock_code (stock_code : String) : String :=
  if containsDot stock_code then
    let parts := pySplit stock_code '.'
    pyLower (parts.getD 1 "") ++ "." ++ parts.getD 0 ""
  else if pyStartsWith stock_code '6' then "sh." ++ stock_code
  else if pyStartsWith stock_code '0' || pyStartsWith stock_code '3' then
    "sz." ++ stock_code
  else if pyStartsWith stock_code '8' || pyStartsWith stock_code '4' then
    "bj." ++ stock_code
  else "sh." ++ stock_code

/-- The Sina stock code built inline in `get_financial_data`
(lines 237-239): `sh` prefix for codes starting with `6`, `sz` prefix for
everything else. -/
def sinaCode (stock_code : String) : String :=
  if pyStartsWith stock_code '6' then "sh" ++ stock_code else "sz" ++ stock_code

/-- `start_date.replace("-", "")`: removes every dash character. -/
def stripDashes (s : String) : String :=
  String.mk (s.data.filter (fun c => c != '-'))

/-- `f"{s[:4]}-{s[4:6]}-{s[6:]}"` (Python slicing is by codepoint). -/
def toHyphen (s : String) : String :=
  String.mk (s.data.take 4) ++ "-" ++ String.mk ((s.data.drop 4).take 2) ++ "-" ++
    String.mk (s.data.drop 6)

/-- `_login_baostock`: returns `True` at once when already logged in;
otherwise performs the underlying `bs.login()` call (recorded as an
`Event.bsLogin`), setting the flag on `error_code == "0"`. -/
def _login_baostock (env : ProviderEnv) (st : DataSourceFallback) :
    Bool × DataSourceFallback × List Event :=
  if st.baostock_logged_in then
    (true, st, [])
  else
    match env.bsLogin with
    | .ok lg =>
        if lg.error_code = "0" then
          (true, { st with baostock_logged_in := true }, [.bsLogin])
        else
          (false, st, [.bsLogin])
    | .exn _ => (false, st, [.bsLogin])

/-- The `fields=` argument of the TuShare `daily` call. -/
def tushareFields : String :=
  "ts_code,trade_date,open,high,low,close,pre_close,change,pct_chg,vol,amount"

/-- The field list of the Baostock `query_history_k_data_plus` call. -/
def baostockDailyFields : String :=
  "date,code,open,high,low,close,preclose,volume,amount,adjustflag,turn,tradestatus,pctChg,isST"

/-- The column renaming applied to the TuShare frame
(`df.rename(columns={...})`). -/
def tushareRename (c : String) : String :=
  if c = "trade_date" then "date"
  else if c = "ts_code" then "code"
  else if c = "pre_close" then "preclose"
  else if c = "vol" then "volume"
  else if c = "pct_chg" then "pctChg"
  else c

/-- Renamed TuShare frame. -/
def tushareRenameDf (df : DataFrame) : DataFrame :=
  { df with columns := df.columns.map tushareRename }

/-- The TuShare section of `get_daily_data` (lines 95-119): guarded by
`if self.tushare_api:`, converts the code, calls `daily`, and succeeds
only when the frame is neither `None` nor empty.  Any exception is caught
(`none` outcome). -/
def tushare_attempt (env : ProviderEnv) (st : DataSourceFallback)
    (stock_code start_date_dash end_date_dash : String) :
    Option DataFrame × List Event :=
  if st.tushare_api then
    let ts_code := _convert_to_tushare_code stock_code
    let ev := Event.tushareDaily ts_code start_date_dash end_date_dash tushareFields
    match env.tushareDaily ts_code start_date_dash end_date_dash with
    | .ok (some df) =>
        if !df.empty then (some (tushareRenameDf df), [ev]) else (none, [ev])
    | .ok none => (none, [ev])
    | .exn _ => (none, [ev])
  else (none, [])

/-- The Baostock section of `get_daily_data` (lines 121-149), after the
`_login_baostock` gate has produced `loggedIn`: converts the code, maps
the adjustment mode to `adjustflag`, queries, collects the rows when
`error_code == "0"`, and succeeds only on a non-empty frame. -/
def baostock_attempt (env : ProviderEnv) (loggedIn : Bool)
    (stock_code start_date_hyphen end_date_hyphen adjust : String) :
    Option DataFrame × List Event :=
  if loggedIn then
    let bs_code := _convert_to_baostock_code stock_code
    let adjustflag := if adjust = "qfq" then "2" else if adjust = "hfq" then "1" else "3"
    let ev := Event.bsQueryHistory bs_code baostockDailyFields
      start_date_hyphen end_date_hyphen "d" adjustflag
    match env.bsQueryHistory bs_code start_date_hyphen end_date_hyphen adjustflag with
    | .ok rs =>
        if rs.error_code = "0" then
          let df : DataFrame := ⟨rs.fields, rs.rows⟩
          if !df.empty then (some df, [ev]) else (none, [ev])
        else (none, [ev])
    | .exn _ => (none, [ev])
  else (none, [])

/-- The AkShare section of `get_daily_data` (lines 151-167): always
attempted when reached; succeeds when the frame is neither `None` nor
empty; exceptions caught. -/
def akshare_attempt (env : ProviderEnv)
    (stock_code start_date_dash end_date_dash adjust : String) :
    Option DataFrame × List Event :=
  let ev := Event.akStockHist stock_code "daily" start_date_dash end_date_dash adjust
  match env.akStockHist stock_code start_date_dash end_date_dash adjust with
  | .ok (some df) => if !df.empty then (some df, [ev]) else (none, [ev])
  | .ok none => (none, [ev])
  | .exn _ => (none, [ev])

/-- The generic message returned when every provider has failed
(`"所有数据源均失败"`, "all data sources failed"). -/
def allFailedMsg : String := "所有数据源均失败"

/-- `get_daily_data`: TuShare, then Baostock (behind its login gate),
then AkShare; the first non-empty frame is returned with the provider
name, otherwise `(None, allFailedMsg)`.  Also returns the updated state
and the trace of provider events. -/
def get_daily_data (env : ProviderEnv) (st : DataSourceFallback)
    (stock_code start_date end_date adjust : String) :
    (Option DataFrame × String) × DataSourceFallback × List Event :=
  let start_date_dash := stripDashes start_date
  let end_date_dash := stripDashes end_date
  let start_date_hyphen := toHyphen start_date_dash
  let end_date_hyphen := toHyphen end_date_dash
  match tushare_attempt env st stock_code start_date_dash end_date_dash with
  | (some df, evs1) => ((some df, "TuShare"), st, evs1)
  | (none, evs1) =>
    let (loggedIn, st1, evs2) := _login_baostock env st
    match baostock_attempt env loggedIn stock_code start_date_hyphen end_date_hyphen adjust with
    | (some df, evs3) => ((some df, "Baostock"), st1, evs1 ++ evs2 ++ evs3)
    | (none, evs3) =>
      match akshare_attempt env stock_code start_date_dash end_date_dash adjust with
      | (some df, evs4) => ((some df, "AkShare"), st1, evs1 ++ evs2 ++ evs3 ++ evs4)
      | (none, evs4) => ((none, allFailedMsg), st1, evs1 ++ evs2 ++ evs3 ++ evs4)

/-- The dict built by the Baostock section of `get_financial_data`: each
key is present iff the corresponding query's `error_code` was `"0"`. -/
structure FinancialResult where
  profit : Option DataFrame
  balance : Option DataFrame
  cashflow : Option DataFrame
deriving Repr, DecidableEq

/-- Python truthiness of the dict (`if result:`): at least one key. -/
def FinancialResult.nonempty (r : FinancialResult) : Bool :=
  r.profit.isSome || r.balance.isSome || r.cashflow.isSome

/-- The Baostock section of `get_financial_data` (lines 188-231), after
the login gate: issues the three queries in order (an exception aborts
the remaining ones), adds each table whose `error_code` is `"0"`, and
returns the dict when it is non-empty. -/
def baostock_financial_attempt (env : ProviderEnv) (loggedIn : Bool)
    (stock_code : String) (year quarter : Int) :
    Option FinancialResult × List Event :=
  if loggedIn then
    let bs_code := _convert_to_baostock_code stock_code
    let evP := Event.bsQueryProfit bs_code year quarter
    let evB := Event.bsQueryBalance bs_code year quarter
    let evC := Event.bsQueryCash bs_code year quarter
    match env.bsQueryProfit bs_code year quarter with
    | .exn _ => (none, [evP])
    | .ok rs_profit =>
      match env.bsQueryBalance bs_code year quarter with
      | .exn _ => (none, [evP, evB])
      | .ok rs_balance =>
        match env.bsQueryCash bs_code year quarter with
        | .exn _ => (none, [evP, evB, evC])
        | .ok rs_cash =>
          let result : FinancialResult :=
            { profit := if rs_profit.error_code = "0" then
                some ⟨rs_profit.fields, rs_profit.rows⟩ else none
            , balance := if rs_balance.error_code = "0" then
                some ⟨rs_balance.fields, rs_balance.rows⟩ else none
            , cashflow := if rs_cash.error_code = "0" then
                some ⟨rs_cash.fields, rs_cash.rows⟩ else none }
          if result.nonempty then (some result, [evP, evB, evC])
          else (none, [evP, evB, evC])
  else (none, [])

/-- The AkShare-Sina section of `get_financial_data` (lines 233-256):
fetches the three statements for the Sina code (an exception aborts the
rest and is caught); on success all three keys are present. -/
def akshare_financial_attempt (env : ProviderEnv) (stock_code : String) :
    Option FinancialResult × List Event :=
  let sc := sinaCode stock_code
  let evB := Event.akFinancialSina sc "资产负债表"
  let evP := Event.akFinancialSina sc "利润表"
  let evC := Event.akFinancialSina sc "现金流量表"
  match env.akFinancialSina sc "资产负债表" with
  | .exn _ => (none, [evB])
  | .ok balance_df =>
    match env.akFinancialSina sc "利润表" with
    | .exn _ => (none, [evB, evP])
    | .ok profit_df =>
      match env.akFinancialSina sc "现金流量表" with
      | .exn _ => (none, [evB, evP, evC])
      | .ok cash_df =>
        (some { profit := some profit_df, balance := some balance_df,
                cashflow := some cash_df }, [evB, evP, evC])

/-- `get_financial_data`: Baostock (behind the login gate), then the
AkShare Sina interface, otherwise `(None, allFailedMsg)`. -/
def get_financial_data (env : ProviderEnv) (st : DataSourceFallback)
    (stock_code : String) (year quarter : Int) :
    (Option FinancialResult × String) × DataSourceFallback × List Event :=
  let (loggedIn, st1, evs1) := _login_baostock env st
  match baostock_financial_attempt env loggedIn stock_code year quarter with
  | (some r, evs2) => ((some r, "Baostock"), st1, evs1 ++ evs2)
  | (none, evs2) =>
    match akshare_financial_attempt env stock_code with
    | (some r, evs3) => ((some r, "AkShare"), st1, evs1 ++ evs2 ++ evs3)
    | (none, evs3) => ((none, allFailedMsg), st1, evs1 ++ evs2 ++ evs3)

/-- Consecutive `_login_baostock` acquisitions: the list of returned
booleans, the final state and the accumulated trace. -/
def loginSeq (env : ProviderEnv) (st : DataSourceFallback) :
    Nat → List Bool × DataSourceFallback × List Event
  | 0 => ([], st, [])
  | n + 1 =>
      let (ok1, st1, evs1) := _login_baostock env st
      let (oks, st2, evs2) := loginSeq env st1 n
      (ok1 :: oks, st2, evs1 ++ evs2)

/-- Whether an event is a TuShare API call. -/
def Event.isTushare : Event → Bool
  | .tushareDaily _ _ _ _ => true
  | _ => false

/-- Modelled from the spec: `fromCanonical(rawCode) -> StockIdentifier`
(§4.1) has no implementation in `src/`; per §3 the canonical identifier
is the bare numeric code with the market derived from its leading digit,
so the inverse of the provider formats keeps exactly the digit
characters of the raw provider code (dropping the `sh./sz./bj.` prefixes
and `.SH/.SZ/.BJ` suffixes). -/
def fromCanonical (rawCode : String) : String :=
  String.mk (rawCode.data.filter (·.isDigit))

/-! ### Helper lemmas -/

/-- A string of digits contains no dot. -/
lemma containsDot_eq_false_of_all_digit (code : String)
    (h : code.data.all (·.isDigit) = true) : containsDot code = false := by
  unfold containsDot
  by_contra hc
  rw [Bool.not_eq_false] at hc
  have hmem : '.' ∈ code.data := by
    simpa [List.contains] using hc
  have hdig := (List.all_eq_true.mp h) '.' hmem
  exact absurd hdig (by decide)

/-- Appending a string that contains a dot yields a string that contains
a dot. -/
lemma containsDot_append_right (s t : String) (h : containsDot t = true) :
    containsDot (s ++ t) = true := by
  unfold containsDot at *
  rw [String.data_append]
  have hmem : '.' ∈ t.data := by simpa [List.contains] using h
  simpa [List.contains] using List.mem_append_right s.data hmem

/-- A single-character `startswith` determines the head, so a string
cannot start with two different characters. -/
lemma pyStartsWith_unique (code : String) (c c' : Char)
    (h : pyStartsWith code c = true) (hne : c' ≠ c) :
    pyStartsWith code c' = false := by
  unfold pyStartsWith at *
  have hh : code.data.head? = some c := by simpa using h
  simp [hh]
  intro hcc
  first
  | exact hne hcc
  | exact hne hcc.symm

/-- `fromCanonical` strips a digit-free suffix from an all-digit code. -/
lemma fromCanonical_append (code suffix : String)
    (hdig : code.data.all (·.isDigit) = true)
    (hs : suffix.data.filter (·.isDigit) = []) :
    fromCanonical (code ++ suffix) = code := by
  unfold fromCanonical
  rw [String.data_append, List.filter_append, hs, List.append_nil,
    List.filter_eq_self.mpr (fun a ha => (List.all_eq_true.mp hdig) a ha)]

/-- `fromCanonical` strips a digit-free prefix from an all-digit code. -/
lemma fromCanonical_prepend (pre code : String)
    (hdig : code.data.all (·.isDigit) = true)
    (hp : pre.data.filter (·.isDigit) = []) :
    fromCanonical (pre ++ code) = code := by
  unfold fromCanonical
  rw [String.data_append, List.filter_append, hp, List.nil_append,
    List.filter_eq_self.mpr (fun a ha => (List.all_eq_true.mp hdig) a ha)]

/-! ### Claim C3 -/

/-- C3 (counterexample): the claim says every provider-specific code
conversion in the module maps a leading `8` or `4` to Beijing and any
other unrecognised leading digit to Shanghai, but the Sina code built in
`get_financial_data` tags `830001`, `430047` and `730001` with the
Shenzhen prefix `sz` — for `830001` the Beijing-prefixed form `bj830001`
is not produced. -/
theorem claim3_counterexample :
    sinaCode "830001" = "sz830001" ∧ sinaCode "430047" = "sz430047" ∧
    sinaCode "730001" = "sz730001" ∧ sinaCode "830001" ≠ "bj" ++ "830001" := by
  refine ⟨rfl, rfl, rfl, ?_⟩
  decide

/-- C3 (amended): for bare codes (no dot), `_convert_to_tushare_code` and
`_convert_to_baostock_code` infer the market from the leading digit as
the claim states (`6`→Shanghai, `0`/`3`→Shenzhen, `8`/`4`→Beijing,
otherwise Shanghai), but the Sina code conversion in `get_financial_data`
uses only a two-way rule: leading `6` gives the Shanghai prefix `sh` and
every other leading digit — including `8`, `4` and unrecognised digits —
gives the Shenzhen prefix `sz`. -/
theorem claim3_amended_leading_digit (code : String) (h : containsDot code = false) :
    (pyStartsWith code '6' = true →
      _convert_to_tushare_code code = code ++ ".SH" ∧
      _convert_to_baostock_code code = "sh." ++ code ∧
      sinaCode code = "sh" ++ code) ∧
    (pyStartsWith code '0' = true ∨ pyStartsWith code '3' = true →
      _convert_to_tushare_code code = code ++ ".SZ" ∧
      _convert_to_baostock_code code = "sz." ++ code ∧
      sinaCode code = "sz" ++ code) ∧
    (pyStartsWith code '8' = true ∨ pyStartsWith code '4' = true →
      _convert_to_tushare_code code = code ++ ".BJ" ∧
      _convert_to_baostock_code code = "bj." ++ code ∧
      sinaCode code = "sz" ++ code) ∧
    ((pyStartsWith code '6' || pyStartsWith code '0' || pyStartsWith code '3' ||
      pyStartsWith code '8' || pyStartsWith code '4') = false →
      _convert_to_tushare_code code = code ++ ".SH" ∧
      _convert_to_baostock_code code = "sh." ++ code ∧
      sinaCode code = "sz" ++ code) := by
  refine ⟨fun h6 => ?_, fun h03 => ?_, fun h84 => ?_, fun hother => ?_⟩
  · simp [_convert_to_tushare_code, _convert_to_baostock_code, sinaCode, h, h6]
  · rcases h03 with h0 | h3
    · have h6 := pyStartsWith_unique code '0' '6' h0 (by decide)
      simp [_convert_to_tushare_code, _convert_to_baostock_code, sinaCode, h, h0, h6]
    · have h6 := pyStartsWith_unique code '3' '6' h3 (by decide)
      have h0 := pyStartsWith_unique code '3' '0' h3 (by decide)
      simp [_convert_to_tushare_code, _convert_to_baostock_code, sinaCode, h, h3, h6, h0]
  · rcases h84 with h8 | h4
    · have h6 := pyStartsWith_unique code '8' '6' h8 (by decide)
      have h0 := pyStartsWith_unique code '8' '0' h8 (by decide)
      have h3 := pyStartsWith_unique code '8' '3' h8 (by decide)
      simp [_convert_to_tushare_code, _convert_to_baostock_code, sinaCode,
        h, h8, h6, h0, h3]
    · have h6 := pyStartsWith_unique code '4' '6' h4 (by decide)
      have h0 := pyStartsWith_unique code '4' '0' h4 (by decide)
      have h3 := pyStartsWith_unique code '4' '3' h4 (by decide)
      have h8 := pyStartsWith_unique code '4' '8' h4 (by decide)
      simp [_convert_to_tushare_code, _convert_to_baostock_code, sinaCode,
        h, h4, h6, h0, h3, h8]
  · simp only [Bool.or_eq_false_iff] at hother
    obtain ⟨⟨⟨⟨h6, h0⟩, h3⟩, h8⟩, h4⟩ := hother
    simp [_convert_to_tushare_code, _convert_to_baostock_code, sinaCode,
      h, h6, h0, h3, h8, h4]

/-- C3 (witness): the amended theorem applied to the bare Beijing-board
code `830001`. -/
theorem claim3_amended_leading_digit_witness :
    _convert_to_tushare_code "830001" = "830001" ++ ".BJ" ∧
    _convert_to_baostock_code "830001" = "bj." ++ "830001" ∧
    sinaCode "830001" = "sz" ++ "830001" :=
  (claim3_amended_leading_digit "830001" rfl).2.2.1 (Or.inl rfl)

/-! ### Claim C6 -/

/-- C6 (counterexample): the claim says each conversion returns
already-converted codes unchanged and is idempotent, but
`_convert_to_baostock_code` swaps the components of a dotted code: the
already-Baostock-formatted `sh.600519` becomes `600519.sh`, so applying
the conversion twice to `600519` yields `600519.sh`, not the
once-converted `sh.600519`. -/
theorem claim6_counterexample :
    _convert_to_baostock_code "sh.600519" = "600519.sh" ∧
    _convert_to_baostock_code "600519" = "sh.600519" ∧
    _convert_to_baostock_code (_convert_to_baostock_code "600519") = "600519.sh" ∧
    _convert_to_baostock_code (_convert_to_baostock_code "600519") ≠
      _convert_to_baostock_code "600519" := by
  refine ⟨rfl, rfl, rfl, ?_⟩
  decide

/-- C6 (amended): `_convert_to_tushare_code` returns codes that already
contain a dot unchanged and is idempotent; `_convert_to_baostock_code` is
not idempotent, because on a dotted code it swaps the two dot-separated
components (lower-casing the new prefix) instead of returning it
unchanged. -/
theorem claim6_amended_tushare_idempotent (code : String) :
    (containsDot code = true → _convert_to_tushare_code code = code) ∧
    _convert_to_tushare_code (_convert_to_tushare_code code) =
      _convert_to_tushare_code code := by
  constructor
  · intro h
    simp [_convert_to_tushare_code, h]
  · by_cases h : containsDot code = true
    · simp [_convert_to_tushare_code, h]
    · rw [Bool.not_eq_true] at h
      have hdot : ∀ t : String, containsDot t = true →
          _convert_to_tushare_code (code ++ t) = code ++ t := by
        intro t ht
        simp [_convert_to_tushare_code, containsDot_append_right code t ht]
      unfold _convert_to_tushare_code
      simp only [h, Bool.false_eq_true, if_false]
      split
      · exact hdot ".SH" rfl
      · split
        · exact hdot ".SZ" rfl
        · split
          · exact hdot ".BJ" rfl
          · exact hdot ".SH" rfl

/-- C6 (witness): the amended theorem applied to the already-dotted code
`600519.SH`, which `_convert_to_tushare_code` returns unchanged. -/
theorem claim6_amended_tushare_idempotent_witness :
    _convert_to_tushare_code "600519.SH" = "600519.SH" :=
  (claim6_amended_tushare_idempotent "600519.SH").1 rfl

/-! ### Claim C9 -/

/-- C9: for every canonical identifier (a non-empty all-digit code) whose
leading digit is `6`, `0`, `3`, `8` or `4`, converting to the TuShare or
the Baostock provider format and then back in the canonical direction
(`fromCanonical`, modelled from the spec) round-trips to the original
identifier. -/
theorem claim9_roundtrip (code : String) (d : Char)
    (hhead : code.data.head? = some d)
    (hd : d = '6' ∨ d = '0' ∨ d = '3' ∨ d = '8' ∨ d = '4')
    (hdig : code.data.all (·.isDigit) = true) :
    fromCanonical (_convert_to_tushare_code code) = code ∧
    fromCanonical (_convert_to_baostock_code code) = code := by
  have hnd : containsDot code = false := containsDot_eq_false_of_all_digit code hdig
  have hpsw : ∀ c : Char, d = c → pyStartsWith code c = true := by
    intro c hc
    simp [pyStartsWith, hhead, hc]
  have hpsw' : ∀ c : Char, d ≠ c → pyStartsWith code c = false := by
    intro c hc
    simp [pyStartsWith, hhead]
    exact fun hcc => hc hcc
  rcases hd with h | h | h | h | h
  · have h6 := hpsw '6' h
    rw [_convert_to_tushare_code, _convert_to_baostock_code]
    simp only [hnd, h6, Bool.false_eq_true, if_false, if_true]
    exact ⟨fromCanonical_append code ".SH" hdig (by decide),
      fromCanonical_prepend "sh." code hdig (by decide)⟩
  · have h6 := hpsw' '6' (by rw [h]; decide)
    have h0 := hpsw '0' h
    rw [_convert_to_tushare_code, _convert_to_baostock_code]
    simp only [hnd, h6, h0, Bool.false_eq_true, if_false, if_true,
      Bool.true_or, Bool.false_or]
    exact ⟨fromCanonical_append code ".SZ" hdig (by decide),
      fromCanonical_prepend "sz." code hdig (by decide)⟩
  · have h6 := hpsw' '6' (by rw [h]; decide)
    have h0 := hpsw' '0' (by rw [h]; decide)
    have h3 := hpsw '3' h
    rw [_convert_to_tushare_code, _convert_to_baostock_code]
    simp only [hnd, h6, h0, h3, Bool.false_eq_true, if_false, if_true,
      Bool.true_or, Bool.false_or, Bool.or_true]
    exact ⟨fromCanonical_append code ".SZ" hdig (by decide),
      fromCanonical_prepend "sz." code hdig (by decide)⟩
  · have h6 := hpsw' '6' (by rw [h]; decide)
    have h0 := hpsw' '0' (by rw [h]; decide)
    have h3 := hpsw' '3' (by rw [h]; decide)
    have h8 := hpsw '8' h
    rw [_convert_to_tushare_code, _convert_to_baostock_code]
    simp only [hnd, h6, h0, h3, h8, Bool.false_eq_true, if_false, if_true,
      Bool.true_or, Bool.false_or, Bool.or_true, Bool.or_false]
    exact ⟨fromCanonical_append code ".BJ" hdig (by decide),
      fromCanonical_prepend "bj." code hdig (by decide)⟩
  · have h6 := hpsw' '6' (by rw [h]; decide)
    have h0 := hpsw' '0' (by rw [h]; decide)
    have h3 := hpsw' '3' (by rw [h]; decide)
    have h8 := hpsw' '8' (by rw [h]; decide)
    have h4 := hpsw '4' h
    rw [_convert_to_tushare_code, _convert_to_baostock_code]
    simp only [hnd, h6, h0, h3, h8, h4, Bool.false_eq_true, if_false, if_true,
      Bool.true_or, Bool.false_or, Bool.or_true, Bool.or_false]
    exact ⟨fromCanonical_append code ".BJ" hdig (by decide),
      fromCanonical_prepend "bj." code hdig (by decide)⟩

/-- C9 (witness): the round-trip theorem applied to the canonical
identifier `600519`. -/
theorem claim9_roundtrip_witness :
    fromCanonical (_convert_to_tushare_code "600519") = "600519" ∧
    fromCanonical (_convert_to_baostock_code "600519") = "600519" :=
  claim9_roundtrip "600519" '6' rfl (Or.inl rfl) (by decide)

/-! ### Claim C7 -/

/-- While the Baostock session is active, an acquisition sequence returns
`True` every time, leaves the state unchanged and performs no login
call. -/
lemma loginSeq_active (env : ProviderEnv) (st : DataSourceFallback)
    (hact : st.baostock_logged_in = true) :
    ∀ n, loginSeq env st n = (List.replicate n true, st, []) := by
  intro n
  induction n with
  | zero => rfl
  | succ n ih =>
      simp only [loginSeq, _login_baostock, hact, if_true, ih,
        List.replicate_succ, List.nil_append]

/-- C7: Baostock session acquisition is idempotent.  Once
`baostock_logged_in` is set, every further `_login_baostock` in a
sequence of consecutive acquisitions returns `True` immediately with no
underlying `bs.login()` call; and when the login environment succeeds,
any acquisition sequence performs the underlying login at most once. -/
theorem claim7_login_idempotent (env : ProviderEnv) (st : DataSourceFallback)
    (n : Nat) :
    (st.baostock_logged_in = true →
      loginSeq env st n = (List.replicate n true, st, [])) ∧
    (∀ lg, env.bsLogin = .ok lg → lg.error_code = "0" →
      ((loginSeq env st n).2.2.count Event.bsLogin) ≤ 1) := by
  constructor
  · exact fun hact => loginSeq_active env st hact n
  · intro lg hlg hcode
    by_cases hact : st.baostock_logged_in = true
    · rw [loginSeq_active env st hact n]
      simp
    · rw [Bool.not_eq_true] at hact
      cases n with
      | zero => simp [loginSeq]
      | succ n =>
          have hstep : _login_baostock env st =
              (true, { st with baostock_logged_in := true }, [.bsLogin]) := by
            simp [_login_baostock, hact, hlg, hcode]
          simp only [loginSeq, hstep,
            loginSeq_active env { st with baostock_logged_in := true } rfl n]
          simp [List.count_cons]

/-- C7 (witness): with a session already active, three consecutive
acquisitions all succeed without any login call. -/
theorem claim7_login_idempotent_witness :
    loginSeq
      { tushareDaily := fun _ _ _ => .exn "down"
      , bsLogin := .ok ⟨"0", ""⟩
      , bsQueryHistory := fun _ _ _ _ => .exn "down"
      , akStockHist := fun _ _ _ _ => .exn "down"
      , bsQueryProfit := fun _ _ _ => .exn "down"
      , bsQueryBalance := fun _ _ _ => .exn "down"
      , bsQueryCash := fun _ _ _ => .exn "down"
      , akFinancialSina := fun _ _ => .exn "down" }
      ⟨none, false, true⟩ 3 =
      ([true, true, true], ⟨none, false, true⟩, []) :=
  (claim7_login_idempotent _ _ 3).1 rfl

/-! ### Claim C1 -/

/-- When the TuShare api object exists and the `daily` call returns a
non-empty frame, the TuShare section succeeds with the renamed frame. -/
lemma tushare_attempt_ok (env : ProviderEnv) (st : DataSourceFallback)
    (stock_code sdash edash : String) (df : DataFrame)
    (hapi : st.tushare_api = true)
    (hcall : env.tushareDaily (_convert_to_tushare_code stock_code) sdash edash =
      .ok (some df))
    (hne : df.rows ≠ []) :
    tushare_attempt env st stock_code sdash edash =
      (some (tushareRenameDf df),
       [Event.tushareDaily (_convert_to_tushare_code stock_code) sdash edash
         tushareFields]) := by
  simp [tushare_attempt, hapi, hcall, DataFrame.empty, hne]

/-- C1: when TuShare is usable (token configured and initialization
succeeded, so `tushare_api` exists) and its `daily` call returns a
non-empty frame, `get_daily_data` returns that frame (renamed) paired
with `"TuShare"`, the state is unchanged, and the trace contains only the
TuShare call — neither Baostock (no login, no query) nor AkShare is
invoked. -/
theorem claim1_tushare_short_circuits (env : ProviderEnv)
    (st : DataSourceFallback) (stock_code start_date end_date adjust : String)
    (df : DataFrame)
    (hapi : st.tushare_api = true)
    (hcall : env.tushareDaily (_convert_to_tushare_code stock_code)
      (stripDashes start_date) (stripDashes end_date) = .ok (some df))
    (hne : df.rows ≠ []) :
    get_daily_data env st stock_code start_date end_date adjust =
      ((some (tushareRenameDf df), "TuShare"), st,
       [Event.tushareDaily (_convert_to_tushare_code stock_code)
         (stripDashes start_date) (stripDashes end_date) tushareFields]) := by
  unfold get_daily_data
  simp only [tushare_attempt_ok env st stock_code (stripDashes start_date)
    (stripDashes end_date) df hapi hcall hne]

/-- C1 (witness): a concrete run in which TuShare returns one row and the
result is that row under the `TuShare` name with no Baostock or AkShare
event. -/
theorem claim1_tushare_short_circuits_witness :
    get_daily_data
      { tushareDaily := fun _ _ _ => .ok (some ⟨["trade_date", "vol"], [["20240102", "100"]]⟩)
      , bsLogin := .ok ⟨"0", ""⟩
      , bsQueryHistory := fun _ _ _ _ => .ok ⟨"0", ["date"], [["2024-01-02"]]⟩
      , akStockHist := fun _ _ _ _ => .ok (some ⟨["date"], [["2024-01-02"]]⟩)
      , bsQueryProfit := fun _ _ _ => .exn "down"
      , bsQueryBalance := fun _ _ _ => .exn "down"
      , bsQueryCash := fun _ _ _ => .exn "down"
      , akFinancialSina := fun _ _ => .exn "down" }
      ⟨some "token", true, false⟩ "600519" "2024-01-01" "2024-01-05" "qfq" =
      ((some ⟨["date", "volume"], [["20240102", "100"]]⟩, "TuShare"),
       ⟨some "token", true, false⟩,
       [Event.tushareDaily "600519.SH" "20240101" "20240105" tushareFields]) := by
  rw [claim1_tushare_short_circuits _ _ "600519" "2024-01-01" "2024-01-05" "qfq"
    ⟨["trade_date", "vol"], [["20240102", "100"]]⟩ rfl rfl (by decide)]
  rfl

/-! ### Claim C5 -/

/-- C5: a provider call that succeeds with zero rows triggers fallback.
With TuShare usable but returning an empty frame for `600519` over
`2024-01-01`..`2024-01-05`, and Baostock logging in and returning three
rows, `get_daily_data` returns Baostock's three rows with the name
`"Baostock"`. -/
theorem claim5_empty_triggers_fallback (env : ProviderEnv)
    (st : DataSourceFallback) (df0 : DataFrame) (lg : LoginResult)
    (rs : ResultSet) (r1 r2 r3 : List String)
    (hapi : st.tushare_api = true)
    (h0 : env.tushareDaily "600519.SH" "20240101" "20240105" = .ok (some df0))
    (hemp : df0.rows = [])
    (hlogin : env.bsLogin = .ok lg) (hlg : lg.error_code = "0")
    (hq : env.bsQueryHistory "sh.600519" "2024-01-01" "2024-01-05" "2" = .ok rs)
    (hrs : rs.error_code = "0") (hrows : rs.rows = [r1, r2, r3]) :
    (get_daily_data env st "600519" "2024-01-01" "2024-01-05" "qfq").1 =
      (some ⟨rs.fields, [r1, r2, r3]⟩, "Baostock") := by
  have e1 : stripDashes "2024-01-01" = "20240101" := rfl
  have e2 : stripDashes "2024-01-05" = "20240105" := rfl
  have e3 : toHyphen "20240101" = "2024-01-01" := rfl
  have e4 : toHyphen "20240105" = "2024-01-05" := rfl
  have e5 : _convert_to_tushare_code "600519" = "600519.SH" := rfl
  have e6 : _convert_to_baostock_code "600519" = "sh.600519" := rfl
  have hts : tushare_attempt env st "600519" "20240101" "20240105" =
      (none, [Event.tushareDaily "600519.SH" "20240101" "20240105" tushareFields]) := by
    simp [tushare_attempt, hapi, e5, h0, DataFrame.empty, hemp]
  have hba : baostock_attempt env true "600519" "2024-01-01" "2024-01-05" "qfq" =
      (some ⟨rs.fields, [r1, r2, r3]⟩,
       [Event.bsQueryHistory "sh.600519" baostockDailyFields "2024-01-01"
         "2024-01-05" "d" "2"]) := by
    simp [baostock_attempt, e6, hq, hrs, hrows, DataFrame.empty]
  unfold get_daily_data
  simp only [e1, e2, e3, e4, hts]
  by_cases hbl : st.baostock_logged_in = true
  · have hlb : _login_baostock env st = (true, st, []) := by
      simp [_login_baostock, hbl]
    simp only [hlb, hba]
  · rw [Bool.not_eq_true] at hbl
    have hlb : _login_baostock env st =
        (true, { st with baostock_logged_in := true }, [.bsLogin]) := by
      simp [_login_baostock, hbl, hlogin, hlg]
    simp only [hlb, hba]

/-- C5 (witness): the fallback theorem at a fully concrete environment:
TuShare yields an empty frame, Baostock yields three rows. -/
theorem claim5_empty_triggers_fallback_witness :
    (get_daily_data
      { tushareDaily := fun _ _ _ => .ok (some ⟨["trade_date"], []⟩)
      , bsLogin := .ok ⟨"0", ""⟩
      , bsQueryHistory := fun _ _ _ _ =>
          .ok ⟨"0", ["date", "close"],
            [["2024-01-02", "1685"], ["2024-01-03", "1660"], ["2024-01-04", "1670"]]⟩
      , akStockHist := fun _ _ _ _ => .exn "down"
      , bsQueryProfit := fun _ _ _ => .exn "down"
      , bsQueryBalance := fun _ _ _ => .exn "down"
      , bsQueryCash := fun _ _ _ => .exn "down"
      , akFinancialSina := fun _ _ => .exn "down" }
      ⟨some "token", true, false⟩ "600519" "2024-01-01" "2024-01-05" "qfq").1 =
      (some ⟨["date", "close"],
        [["2024-01-02", "1685"], ["2024-01-03", "1660"], ["2024-01-04", "1670"]]⟩,
       "Baostock") :=
  claim5_empty_triggers_fallback _ _ ⟨["trade_date"], []⟩ ⟨"0", ""⟩
    ⟨"0", ["date", "close"],
      [["2024-01-02", "1685"], ["2024-01-03", "1660"], ["2024-01-04", "1670"]]⟩
    _ _ _ rfl rfl rfl rfl rfl rfl rfl rfl

/-! ### Claim C10 -/

/-- The login section performs no TuShare call. -/
lemma login_trace_no_tushare (env : ProviderEnv) (st : DataSourceFallback) :
    ((_login_baostock env st).2.2).filter Event.isTushare = [] := by
  unfold _login_baostock
  split
  · rfl
  · split
    · split <;> rfl
    · rfl

/-- The Baostock daily section performs no TuShare call. -/
lemma baostock_attempt_trace_no_tushare (env : ProviderEnv) (lb : Bool)
    (code sh eh adj : String) :
    ((baostock_attempt env lb code sh eh adj).2).filter Event.isTushare = [] := by
  unfold baostock_attempt
  split
  · dsimp only
    repeat' split
    all_goals rfl
  · rfl

/-- The AkShare daily section performs no TuShare call. -/
lemma akshare_attempt_trace_no_tushare (env : ProviderEnv)
    (code sd ed adj : String) :
    ((akshare_attempt env code sd ed adj).2).filter Event.isTushare = [] := by
  unfold akshare_attempt
  split
  · split <;> rfl
  · rfl
  · rfl

/-- When the TuShare section succeeds, `get_daily_data` returns its frame
under the `TuShare` name with the unchanged state, for any adjustment
mode. -/
lemma get_daily_data_tushare_some (env : ProviderEnv) (st : DataSourceFallback)
    (code sd ed adjust : String) (df : DataFrame) (evs : List Event)
    (h : tushare_attempt env st code (stripDashes sd) (stripDashes ed) =
      (some df, evs)) :
    get_daily_data env st code sd ed adjust = ((some df, "TuShare"), st, evs) := by
  unfold get_daily_data
  simp only [h]

/-- The TuShare calls in a `get_daily_data` trace are exactly those of
the TuShare section. -/
lemma daily_trace_tushare_filter (env : ProviderEnv) (st : DataSourceFallback)
    (code sd ed adjust : String) :
    (get_daily_data env st code sd ed adjust).2.2.filter Event.isTushare =
      (tushare_attempt env st code (stripDashes sd) (stripDashes ed)).2.filter
        Event.isTushare := by
  unfold get_daily_data
  rcases hts : tushare_attempt env st code (stripDashes sd) (stripDashes ed)
    with ⟨o1, evs1⟩
  rcases hlb : _login_baostock env st with ⟨lb, st1, evs2⟩
  rcases hba : baostock_attempt env lb code (toHyphen (stripDashes sd))
    (toHyphen (stripDashes ed)) adjust with ⟨o3, evs3⟩
  rcases hak : akshare_attempt env code (stripDashes sd) (stripDashes ed) adjust
    with ⟨o4, evs4⟩
  have h2 : evs2.filter Event.isTushare = [] := by
    have := login_trace_no_tushare env st
    rw [hlb] at this
    exact this
  have h3 : evs3.filter Event.isTushare = [] := by
    have := baostock_attempt_trace_no_tushare env lb code
      (toHyphen (stripDashes sd)) (toHyphen (stripDashes ed)) adjust
    rw [hba] at this
    exact this
  have h4 : evs4.filter Event.isTushare = [] := by
    have := akshare_attempt_trace_no_tushare env code (stripDashes sd)
      (stripDashes ed) adjust
    rw [hak] at this
    exact this
  cases o1 <;> cases o3 <;> cases o4 <;>
    simp [hts, hlb, hba, hak, List.filter_append, h2, h3, h4]

/-- C10: the TuShare branch of `get_daily_data` is independent of the
`adjust` argument.  For two calls identical except for `adjust`, the
TuShare API requests in the traces are the same, and if the result came
from TuShare the two calls agree completely (result, state and trace);
`adjust` only feeds the Baostock `adjustflag` mapping and the AkShare
call. -/
theorem claim10_tushare_adjust_independent (env : ProviderEnv)
    (st : DataSourceFallback) (code sd ed a b : String) :
    (get_daily_data env st code sd ed a).2.2.filter Event.isTushare =
      (get_daily_data env st code sd ed b).2.2.filter Event.isTushare ∧
    ((get_daily_data env st code sd ed a).1.2 = "TuShare" →
      get_daily_data env st code sd ed a = get_daily_data env st code sd ed b) := by
  constructor
  · rw [daily_trace_tushare_filter env st code sd ed a,
      daily_trace_tushare_filter env st code sd ed b]
  · intro h
    rcases hts : tushare_attempt env st code (stripDashes sd) (stripDashes ed)
      with ⟨o1, evs1⟩
    cases o1 with
    | some df =>
        rw [get_daily_data_tushare_some env st code sd ed a df evs1 hts,
          get_daily_data_tushare_some env st code sd ed b df evs1 hts]
    | none =>
        exfalso
        unfold get_daily_data at h
        rcases hlb : _login_baostock env st with ⟨lb, st1, evs2⟩
        rcases hba : baostock_attempt env lb code (toHyphen (stripDashes sd))
          (toHyphen (stripDashes ed)) a with ⟨o3, evs3⟩
        rcases hak : akshare_attempt env code (stripDashes sd) (stripDashes ed) a
          with ⟨o4, evs4⟩
        cases o3 <;> cases o4 <;> simp [hts, hlb, hba, hak, allFailedMsg] at h

/-- C10 (witness): with TuShare succeeding, a forward-adjusted and a
backward-adjusted call coincide. -/
theorem claim10_tushare_adjust_independent_witness :
    get_daily_data
      { tushareDaily := fun _ _ _ => .ok (some ⟨["trade_date"], [["20240102"]]⟩)
      , bsLogin := .ok ⟨"0", ""⟩
      , bsQueryHistory := fun _ _ _ _ => .ok ⟨"0", ["date"], [["2024-01-02"]]⟩
      , akStockHist := fun _ _ _ _ => .ok (some ⟨["date"], [["2024-01-02"]]⟩)
      , bsQueryProfit := fun _ _ _ => .exn "down"
      , bsQueryBalance := fun _ _ _ => .exn "down"
      , bsQueryCash := fun _ _ _ => .exn "down"
      , akFinancialSina := fun _ _ => .exn "down" }
      ⟨some "token", true, false⟩ "600519" "2024-01-01" "2024-01-05" "qfq" =
    get_daily_data
      { tushareDaily := fun _ _ _ => .ok (some ⟨["trade_date"], [["20240102"]]⟩)
      , bsLogin := .ok ⟨"0", ""⟩
      , bsQueryHistory := fun _ _ _ _ => .ok ⟨"0", ["date"], [["2024-01-02"]]⟩
      , akStockHist := fun _ _ _ _ => .ok (some ⟨["date"], [["2024-01-02"]]⟩)
      , bsQueryProfit := fun _ _ _ => .exn "down"
      , bsQueryBalance := fun _ _ _ => .exn "down"
      , bsQueryCash := fun _ _ _ => .exn "down"
      , akFinancialSina := fun _ _ => .exn "down" }
      ⟨some "token", true, false⟩ "600519" "2024-01-01" "2024-01-05" "hfq" :=
  (claim10_tushare_adjust_independent _ _ "600519" "2024-01-01" "2024-01-05"
    "qfq" "hfq").2 rfl

/-! ### Claim C8 -/

/-- C8: for every environment — in particular one in which any provider
call, login attempt or parse raises — `get_daily_data` and
`get_financial_data` return normally, with either a `(data, source-name)`
pair naming one of the providers or the `(None, error-message)` pair; no
exception escapes the fallback loop. -/
theorem claim8_no_exception_escape (env : ProviderEnv)
    (st : DataSourceFallback) (code sd ed adj : String) (year quarter : Int) :
    ((∃ df, (get_daily_data env st code sd ed adj).1.1 = some df ∧
        ((get_daily_data env st code sd ed adj).1.2 = "TuShare" ∨
         (get_daily_data env st code sd ed adj).1.2 = "Baostock" ∨
         (get_daily_data env st code sd ed adj).1.2 = "AkShare")) ∨
      (get_daily_data env st code sd ed adj).1 = (none, allFailedMsg)) ∧
    ((∃ fr, (get_financial_data env st code year quarter).1.1 = some fr ∧
        ((get_financial_data env st code year quarter).1.2 = "Baostock" ∨
         (get_financial_data env st code year quarter).1.2 = "AkShare")) ∨
      (get_financial_data env st code year quarter).1 = (none, allFailedMsg)) := by
  constructor
  · unfold get_daily_data
    rcases hts : tushare_attempt env st code (stripDashes sd) (stripDashes ed)
      with ⟨o1, evs1⟩
    rcases hlb : _login_baostock env st with ⟨lb, st1, evs2⟩
    rcases hba : baostock_attempt env lb code (toHyphen (stripDashes sd))
      (toHyphen (stripDashes ed)) adj with ⟨o3, evs3⟩
    rcases hak : akshare_attempt env code (stripDashes sd) (stripDashes ed) adj
      with ⟨o4, evs4⟩
    cases o1 <;> cases o3 <;> cases o4 <;> simp [hts, hlb, hba, hak]
  · unfold get_financial_data
    rcases hlb : _login_baostock env st with ⟨lb, st1, evs1⟩
    rcases hbf : baostock_financial_attempt env lb code year quarter
      with ⟨ob, evs2⟩
    rcases haf : akshare_financial_attempt env code with ⟨oa, evs3⟩
    cases ob <;> cases oa <;> simp [hlb, hbf, haf]

/-! ### Claim C2 -/

/-- C2 (counterexample): when every provider fails, the returned value is
not an aggregated per-provider reason list.  Two runs whose providers
fail for entirely different reasons (network exceptions versus an
explicit login rejection, a `None` frame and an empty frame) return the
very same `(None, "所有数据源均失败")` pair, so the returned value carries
no per-provider failure reasons at all. -/
theorem claim2_counterexample :
    (get_daily_data
      { tushareDaily := fun _ _ _ => .exn "HTTP timeout"
      , bsLogin := .exn "connection refused"
      , bsQueryHistory := fun _ _ _ _ => .exn "not logged in"
      , akStockHist := fun _ _ _ _ => .exn "HTTP 500"
      , bsQueryProfit := fun _ _ _ => .exn "not logged in"
      , bsQueryBalance := fun _ _ _ => .exn "not logged in"
      , bsQueryCash := fun _ _ _ => .exn "not logged in"
      , akFinancialSina := fun _ _ => .exn "HTTP 500" }
      ⟨some "token", true, false⟩ "600519" "2024-01-01" "2024-01-05" "qfq").1 =
      (none, allFailedMsg) ∧
    (get_daily_data
      { tushareDaily := fun _ _ _ => .ok none
      , bsLogin := .ok ⟨"10001", "invalid user"⟩
      , bsQueryHistory := fun _ _ _ _ => .exn "not logged in"
      , akStockHist := fun _ _ _ _ => .ok (some ⟨["date"], []⟩)
      , bsQueryProfit := fun _ _ _ => .exn "not logged in"
      , bsQueryBalance := fun _ _ _ => .exn "not logged in"
      , bsQueryCash := fun _ _ _ => .exn "not logged in"
      , akFinancialSina := fun _ _ => .exn "HTTP 500" }
      ⟨some "token", true, false⟩ "600519" "2024-01-01" "2024-01-05" "qfq").1 =
      (none, allFailedMsg) ∧
    (ApiResult.exn "connection refused" : ApiResult LoginResult) ≠
      .ok ⟨"10001", "invalid user"⟩ := by
  refine ⟨rfl, rfl, ?_⟩
  decide

/-- C2 (amended): if every provider fails for a request, `get_daily_data`
and `get_financial_data` return `(None, "所有数据源均失败")` — a single
fixed generic message that neither enumerates nor depends on the
individual providers' failure reasons; the per-attempt reasons are only
logged, not returned. -/
theorem claim2_amended_generic_failure (env : ProviderEnv)
    (st : DataSourceFallback) (code sd ed adj : String) (year quarter : Int)
    (h1 : (tushare_attempt env st code (stripDashes sd) (stripDashes ed)).1 = none)
    (h2 : ∀ lb, (baostock_attempt env lb code (toHyphen (stripDashes sd))
      (toHyphen (stripDashes ed)) adj).1 = none)
    (h3 : (akshare_attempt env code (stripDashes sd) (stripDashes ed) adj).1 = none)
    (h4 : ∀ lb, (baostock_financial_attempt env lb code year quarter).1 = none)
    (h5 : (akshare_financial_attempt env code).1 = none) :
    (get_daily_data env st code sd ed adj).1 = (none, allFailedMsg) ∧
    (get_financial_data env st code year quarter).1 = (none, allFailedMsg) := by
  constructor
  · unfold get_daily_data
    rcases hts : tushare_attempt env st code (stripDashes sd) (stripDashes ed)
      with ⟨o1, evs1⟩
    rw [hts] at h1
    simp only at h1
    subst h1
    rcases hlb : _login_baostock env st with ⟨lb, st1, evs2⟩
    rcases hba : baostock_attempt env lb code (toHyphen (stripDashes sd))
      (toHyphen (stripDashes ed)) adj with ⟨o3, evs3⟩
    have h2l := h2 lb
    rw [hba] at h2l
    simp only at h2l
    subst h2l
    rcases hak : akshare_attempt env code (stripDashes sd) (stripDashes ed) adj
      with ⟨o4, evs4⟩
    rw [hak] at h3
    simp only at h3
    subst h3
    simp [hts, hlb, hba, hak]
  · unfold get_financial_data
    rcases hlb : _login_baostock env st with ⟨lb, st1, evs1⟩
    rcases hbf : baostock_financial_attempt env lb code year quarter
      with ⟨ob, evs2⟩
    have h4l := h4 lb
    rw [hbf] at h4l
    simp only at h4l
    subst h4l
    rcases haf : akshare_financial_attempt env code with ⟨oa, evs3⟩
    rw [haf] at h5
    simp only at h5
    subst h5
    simp [hlb, hbf, haf]

/-- C2 (witness): the amended theorem at a concrete environment in which
every provider raises. -/
theorem claim2_amended_generic_failure_witness :
    (get_daily_data
      { tushareDaily := fun _ _ _ => .exn "HTTP timeout"
      , bsLogin := .exn "connection refused"
      , bsQueryHistory := fun _ _ _ _ => .exn "not logged in"
      , akStockHist := fun _ _ _ _ => .exn "HTTP 500"
      , bsQueryProfit := fun _ _ _ => .exn "not logged in"
      , bsQueryBalance := fun _ _ _ => .exn "not logged in"
      , bsQueryCash := fun _ _ _ => .exn "not logged in"
      , akFinancialSina := fun _ _ => .exn "HTTP 500" }
      ⟨some "token", true, false⟩ "600519" "2024-01-01" "2024-01-05" "qfq").1 =
      (none, allFailedMsg) ∧
    (get_financial_data
      { tushareDaily := fun _ _ _ => .exn "HTTP timeout"
      , bsLogin := .exn "connection refused"
      , bsQueryHistory := fun _ _ _ _ => .exn "not logged in"
      , akStockHist := fun _ _ _ _ => .exn "HTTP 500"
      , bsQueryProfit := fun _ _ _ => .exn "not logged in"
      , bsQueryBalance := fun _ _ _ => .exn "not logged in"
      , bsQueryCash := fun _ _ _ => .exn "not logged in"
      , akFinancialSina := fun _ _ => .exn "HTTP 500" }
      ⟨some "token", true, false⟩ "600519" 2024 3).1 =
      (none, allFailedMsg) :=
  claim2_amended_generic_failure _ _ "600519" "2024-01-01" "2024-01-05" "qfq"
    2024 3 rfl (fun lb => by cases lb <;> rfl) rfl
    (fun lb => by cases lb <;> rfl) rfl

/-! ### Claim C4 -/

/-- C4 (code bug): `get_financial_data` can return a partially populated
success.  With Baostock logged in, the profit query succeeding with one
row but the balance and cash-flow queries rejected (`error_code`
`"10001"`), the returned dict contains only the profit table — yet it is
returned as a Baostock success, contradicting both the claim and the
method's own docstring (a dict with the three statements, or a
failure). -/
theorem claim4_partial_financial_success :
    (get_financial_data
      { tushareDaily := fun _ _ _ => .exn "down"
      , bsLogin := .ok ⟨"0", ""⟩
      , bsQueryHistory := fun _ _ _ _ => .exn "down"
      , akStockHist := fun _ _ _ _ => .exn "down"
      , bsQueryProfit := fun _ _ _ =>
          .ok ⟨"0", ["code", "roeAvg"], [["sh.600519", "0.12"]]⟩
      , bsQueryBalance := fun _ _ _ => .ok ⟨"10001", [], []⟩
      , bsQueryCash := fun _ _ _ => .ok ⟨"10001", [], []⟩
      , akFinancialSina := fun _ _ => .exn "down" }
      ⟨none, false, false⟩ "600519" 2024 3).1 =
      (some { profit := some ⟨["code", "roeAvg"], [["sh.600519", "0.12"]]⟩
            , balance := none
            , cashflow := none }, "Baostock") := rfl

end DSF
